import Mathlib

/-!
# zathura: the page facade (page.c) and the viewport notifier (callbacks.c)

A shallow embedding of `page.c` and of `cb_view_vadjustment_value_changed`
from `callbacks.c`.

Conventions of the embedding

* A C pointer that may be `NULL` is an `Option`: `none` is `NULL`.
* `zathura_page_t*` is `Option zathura_page_s`: `none` is the null page,
  `some p` is a pointer to a live page object whose fields currently hold `p`.
  A function that writes through the pointer returns the page object after
  the write.
* An out-parameter `zathura_error_t* error` is `Option zathura_error_t`:
  `none` is a null pointer, `some e` a slot currently holding `e`; functions
  return the slot after the call.
* `double` is kept as its IEEE-754 bit pattern; the code only stores and
  loads such values.
* Calls that leave page.c (the allocator, the plugin hooks, the list library,
  the render queue) are recorded, in order, in a trace.
-/

namespace Zathura

/-! ## Values -/

/-- C `double`, represented by its 64-bit IEEE-754 pattern. -/
structure double where
  bits : Nat
deriving DecidableEq, Repr

/-- The value `0.0`, which is also what zero-filled memory reads as. -/
def double.zero : double := ⟨0⟩

/-- The value `-1.0` (sign bit set, biased exponent 1023, zero mantissa). -/
def double.neg_one : double := ⟨0xBFF0000000000000⟩

/-- Modelled from the spec: the error enumeration of types.h, which is not
among the sources: `OK`, `INVALID_ARGUMENTS`, `NOT_IMPLEMENTED`, plus
plugin-defined failure codes. -/
inductive zathura_error_t where
  | ZATHURA_ERROR_OK
  | ZATHURA_ERROR_INVALID_ARGUMENTS
  | ZATHURA_ERROR_NOT_IMPLEMENTED
  | plugin_defined (code : Nat)
deriving DecidableEq, Repr

open zathura_error_t

/-- Modelled from the spec: the rectangle value type of types.h, a four-field
numeric region passed by value. -/
structure zathura_rectangle_t where
  x1 : double
  y1 : double
  x2 : double
  y2 : double
deriving DecidableEq, Repr

/-- The element destructor a girara list can carry. -/
inductive girara_free_function_t where
  | zathura_annotation_free
  | foreign (address : Nat)
deriving DecidableEq, Repr

/-- Modelled from the spec: the girara list (girara is an external library):
its elements, as opaque handles, and the element free function installed on
it, if any. -/
structure girara_list_t where
  elements : List Nat
  free_function : Option girara_free_function_t
deriving DecidableEq, Repr

/-- The call `girara_list_set_free_function(list, f)`. -/
def girara_list_set_free_function (list : girara_list_t) (f : girara_free_function_t) :
    girara_list_t :=
  { list with free_function := some f }

/-- The page object, `struct zathura_page_s` of page.c.  `data` is the opaque
plugin handle (`void*`), `document` the back-reference, kept as the address of
the document. -/
structure zathura_page_s where
  height : double
  width : double
  index : Nat
  data : Option Nat
  visible : Bool
  document : Option Nat
deriving DecidableEq, Repr

/-! ## Accessors (page.c, lines 94-192) -/

/-- From page.c, lines 94-102. -/
def zathura_page_get_document (page : Option zathura_page_s) : Option Nat :=
  match page with
  | none => none
  | some p => p.document

/-- From page.c, lines 104-112. -/
def zathura_page_get_index (page : Option zathura_page_s) : Nat :=
  match page with
  | none => 0
  | some p => p.index

/-- From page.c, lines 114-122: `-1` for the null page. -/
def zathura_page_get_width (page : Option zathura_page_s) : double :=
  match page with
  | none => double.neg_one
  | some p => p.width

/-- From page.c, lines 124-132. -/
def zathura_page_set_width (page : Option zathura_page_s) (width : double) :
    Option zathura_page_s :=
  match page with
  | none => none
  | some p => some { p with width := width }

/-- From page.c, lines 134-142: `-1` for the null page. -/
def zathura_page_get_height (page : Option zathura_page_s) : double :=
  match page with
  | none => double.neg_one
  | some p => p.height

/-- From page.c, lines 144-152. -/
def zathura_page_set_height (page : Option zathura_page_s) (height : double) :
    Option zathura_page_s :=
  match page with
  | none => none
  | some p => some { p with height := height }

/-- From page.c, lines 154-162. -/
def zathura_page_get_visibility (page : Option zathura_page_s) : Bool :=
  match page with
  | none => false
  | some p => p.visible

/-- From page.c, lines 164-172. -/
def zathura_page_set_visibility (page : Option zathura_page_s) (visibility : Bool) :
    Option zathura_page_s :=
  match page with
  | none => none
  | some p => some { p with visible := visibility }

/-- From page.c, lines 174-182. -/
def zathura_page_get_data (page : Option zathura_page_s) : Option Nat :=
  match page with
  | none => none
  | some p => p.data

/-- From page.c, lines 184-192. -/
def zathura_page_set_data (page : Option zathura_page_s) (data : Option Nat) :
    Option zathura_page_s :=
  match page with
  | none => none
  | some p => some { p with data := data }

/-! ## Plugins -/

/-- One call of a page setter.  The page structure is private to page.c, so a
plugin hook that is handed a page pointer can change the page only through
these four functions. -/
inductive page_setter where
  | set_width (width : double)
  | set_height (height : double)
  | set_visibility (visibility : Bool)
  | set_data (data : Option Nat)
deriving DecidableEq, Repr

/-- Run one recorded setter call on the page. -/
def page_setter.apply (page : Option zathura_page_s) : page_setter → Option zathura_page_s
  | .set_width w => zathura_page_set_width page w
  | .set_height h => zathura_page_set_height page h
  | .set_visibility v => zathura_page_set_visibility page v
  | .set_data d => zathura_page_set_data page d

/-- Run the setter calls a hook made, in order. -/
def apply_setters (page : Option zathura_page_s) (setters : List page_setter) :
    Option zathura_page_s :=
  setters.foldl page_setter.apply page

/-- What a hook that returns an error code did: the code, the setter calls it
made on the page it was handed, and the plugin's own state afterwards. -/
structure hook_status (σ : Type) where
  status : zathura_error_t
  setters : List page_setter
  state : σ

/-- What a hook that returns a pointer and reports through `error` did: the
pointer, the error slot after the call, the setter calls it made on the page,
and the plugin's own state afterwards. -/
structure hook_result (σ : Type) (R : Type) where
  value : Option R
  error : Option zathura_error_t
  setters : List page_setter
  state : σ

/-- Modelled from the spec: the plugin capability table of plugin.h, which is
not among the sources: one optional function pointer per operation (`none` is
a null pointer).  Each hook reads the plugin's own state (type `σ`) and its
arguments, in the order of the C call. -/
structure zathura_plugin_functions_t (σ : Type) where
  page_init : Option (σ → zathura_page_s → hook_status σ)
  page_clear : Option (σ → zathura_page_s → Option Nat → hook_status σ)
  page_search_text : Option (σ → zathura_page_s → Option Nat → String →
    Option zathura_error_t → hook_result σ girara_list_t)
  page_links_get : Option (σ → zathura_page_s → Option Nat →
    Option zathura_error_t → hook_result σ girara_list_t)
  page_form_fields_get : Option (σ → zathura_page_s → Option Nat →
    Option zathura_error_t → hook_result σ girara_list_t)
  page_images_get : Option (σ → zathura_page_s → Option Nat →
    Option zathura_error_t → hook_result σ girara_list_t)
  page_image_get_cairo : Option (σ → zathura_page_s → Option Nat → Nat →
    Option zathura_error_t → hook_result σ Nat)
  page_get_text : Option (σ → zathura_page_s → Option Nat → zathura_rectangle_t →
    Option zathura_error_t → hook_result σ String)
  page_get_annotations : Option (σ → zathura_page_s → Option Nat →
    Option zathura_error_t → hook_result σ girara_list_t)
  page_render_cairo : Option (σ → zathura_page_s → Option Nat → Nat → Bool → hook_status σ)

/-- Modelled from the spec: the plugin of plugin.h, of which page.c reads the
function table only. -/
structure zathura_plugin_t (σ : Type) where
  functions : zathura_plugin_functions_t σ

/-! ## Trace and state -/

/-- A call that leaves page.c. -/
inductive effect where
  | g_malloc0
  | g_free
  | girara_list_set_free_function (list : girara_list_t) (f : girara_free_function_t)
  | page_init (page : zathura_page_s)
  | page_clear (page : zathura_page_s) (data : Option Nat)
  | page_search_text (page : zathura_page_s) (data : Option Nat) (text : String)
  | page_links_get (page : zathura_page_s) (data : Option Nat)
  | page_form_fields_get (page : zathura_page_s) (data : Option Nat)
  | page_images_get (page : zathura_page_s) (data : Option Nat)
  | page_image_get_cairo (page : zathura_page_s) (data : Option Nat) (image : Nat)
  | page_get_text (page : zathura_page_s) (data : Option Nat) (rectangle : zathura_rectangle_t)
  | page_get_annotations (page : zathura_page_s) (data : Option Nat)
  | page_render_cairo (page : zathura_page_s) (data : Option Nat) (cairo : Nat)
      (printing : Bool)
deriving DecidableEq, Repr

/-- Whether the call is an invocation of a plugin hook. -/
def effect.is_plugin_call : effect → Bool
  | .g_malloc0 => false
  | .g_free => false
  | .girara_list_set_free_function _ _ => false
  | _ => true

/-- Whether the call releases page memory. -/
def effect.is_free : effect → Bool
  | .g_free => true
  | _ => false

/-- Whether the call allocates page memory. -/
def effect.is_malloc : effect → Bool
  | .g_malloc0 => true
  | _ => false

/-- What lives outside the page: the plugin's own state and the calls made so
far. -/
structure State (σ : Type) where
  plugin_state : σ
  trace : List effect

/-- The plugin hook invocations made so far, in order. -/
def State.plugin_calls {σ : Type} (s : State σ) : List effect :=
  s.trace.filter effect.is_plugin_call

/-- The statement `if (error != NULL) { *error = code; }`. -/
def set_error (error : Option zathura_error_t) (code : zathura_error_t) :
    Option zathura_error_t :=
  match error with
  | none => none
  | some _ => some code

/-- What a facade function that returns an error code leaves behind: the code,
the page object (`none` once its memory is released) and the outside state. -/
structure status_result (σ : Type) where
  value : zathura_error_t
  page : Option zathura_page_s
  state : State σ

/-- What a facade function that returns a pointer leaves behind: the pointer,
the caller's error slot, the page object (`none` when there is none or its
memory is released) and the outside state. -/
structure call_result (σ : Type) (R : Type) where
  value : Option R
  error : Option zathura_error_t
  page : Option zathura_page_s
  state : State σ

/-! ## Page life cycle (page.c, lines 23-92) -/

section facade

variable {σ : Type}

/-- Modelled from the spec: `zathura_document_get_plugin` of document.h, which
is not among the sources ("get active plugin" of a document), is the parameter
`zathura_document_get_plugin` of every facade function below: it maps the
address of a document to its plugin. -/
abbrev document_plugin_lookup (σ : Type) : Type := Nat → zathura_plugin_t σ

variable (zathura_document_get_plugin : document_plugin_lookup σ)

/-- The page object right after `g_malloc0` and the three assignments of
`zathura_page_new`: every field zero except `index` and `document`. -/
def fresh_page (document : Nat) (index : Nat) : zathura_page_s :=
  let page : zathura_page_s :=
    { height := double.zero, width := double.zero, index := 0, data := none,
      visible := false, document := none }
  { page with index := index, visible := false, document := some document }

/-- From page.c, lines 70-92.  The three early returns and the final one, in the order
of the source; `g_free` is recorded where the source calls it. -/
def zathura_page_free (s : State σ) (page : Option zathura_page_s) : status_result σ :=
  match page with
  | none => { value := ZATHURA_ERROR_INVALID_ARGUMENTS, page := none, state := s }
  | some p =>
    match p.document with
    | none =>
      { value := ZATHURA_ERROR_INVALID_ARGUMENTS, page := none,
        state := { s with trace := s.trace ++ [effect.g_free] } }
    | some document =>
      let plugin := zathura_document_get_plugin document
      match plugin.functions.page_clear with
      | none => { value := ZATHURA_ERROR_NOT_IMPLEMENTED, page := some p, state := s }
      | some page_clear =>
        let r := page_clear s.plugin_state p p.data
        { value := r.status, page := none,
          state := { plugin_state := r.state,
                     trace := s.trace ++ [effect.page_clear p p.data, effect.g_free] } }

/-- From page.c, lines 23-68.  The jump to `error_ret` returns at once; the jump to
`error_free` runs `zathura_page_free` on the page first. -/
def zathura_page_new (s : State σ) (document : Option Nat) (index : Nat)
    (error : Option zathura_error_t) : call_result σ zathura_page_s :=
  match document with
  | none =>
    { value := none, error := set_error error ZATHURA_ERROR_INVALID_ARGUMENTS,
      page := none, state := s }
  | some d =>
    let page := fresh_page d index
    let s1 : State σ := { s with trace := s.trace ++ [effect.g_malloc0] }
    let plugin := zathura_document_get_plugin d
    match plugin.functions.page_init with
    | none =>
      { value := none, error := set_error error ZATHURA_ERROR_NOT_IMPLEMENTED,
        page := some page, state := s1 }
    | some page_init =>
      let r := page_init s1.plugin_state page
      let page1 := apply_setters (some page) r.setters
      let s2 : State σ :=
        { plugin_state := r.state, trace := s1.trace ++ [effect.page_init page] }
      if r.status ≠ ZATHURA_ERROR_OK then
        match page1 with
        | none => { value := none, error := set_error error r.status, page := none, state := s2 }
        | some _ =>
          let released := zathura_page_free zathura_document_get_plugin s2 page1
          { value := none, error := set_error error r.status,
            page := released.page, state := released.state }
      else
        { value := page1, error := error, page := page1, state := s2 }

/-! ## Dispatch operations (page.c, lines 194-371) -/

/-- From page.c, lines 194-213. -/
def zathura_page_search_text (s : State σ) (page : Option zathura_page_s)
    (text : Option String) (error : Option zathura_error_t) : call_result σ girara_list_t :=
  match page with
  | none =>
    { value := none, error := set_error error ZATHURA_ERROR_INVALID_ARGUMENTS,
      page := page, state := s }
  | some p =>
    match p.document with
    | none =>
      { value := none, error := set_error error ZATHURA_ERROR_INVALID_ARGUMENTS,
        page := page, state := s }
    | some document =>
      match text with
      | none =>
        { value := none, error := set_error error ZATHURA_ERROR_INVALID_ARGUMENTS,
          page := page, state := s }
      | some t =>
        let plugin := zathura_document_get_plugin document
        match plugin.functions.page_search_text with
        | none =>
          { value := none, error := set_error error ZATHURA_ERROR_NOT_IMPLEMENTED,
            page := page, state := s }
        | some page_search_text =>
          let r := page_search_text s.plugin_state p p.data t error
          { value := r.value, error := r.error, page := apply_setters page r.setters,
            state := { plugin_state := r.state,
                       trace := s.trace ++ [effect.page_search_text p p.data t] } }

/-- From page.c, lines 215-234. -/
def zathura_page_links_get (s : State σ) (page : Option zathura_page_s)
    (error : Option zathura_error_t) : call_result σ girara_list_t :=
  match page with
  | none =>
    { value := none, error := set_error error ZATHURA_ERROR_INVALID_ARGUMENTS,
      page := page, state := s }
  | some p =>
    match p.document with
    | none =>
      { value := none, error := set_error error ZATHURA_ERROR_INVALID_ARGUMENTS,
        page := page, state := s }
    | some document =>
      let plugin := zathura_document_get_plugin document
      match plugin.functions.page_links_get with
      | none =>
        { value := none, error := set_error error ZATHURA_ERROR_NOT_IMPLEMENTED,
          page := page, state := s }
      | some page_links_get =>
        let r := page_links_get s.plugin_state p p.data error
        { value := r.value, error := r.error, page := apply_setters page r.setters,
          state := { plugin_state := r.state,
                     trace := s.trace ++ [effect.page_links_get p p.data] } }

/-- From page.c, lines 242-261. -/
def zathura_page_form_fields_get (s : State σ) (page : Option zathura_page_s)
    (error : Option zathura_error_t) : call_result σ girara_list_t :=
  match page with
  | none =>
    { value := none, error := set_error error ZATHURA_ERROR_INVALID_ARGUMENTS,
      page := page, state := s }
  | some p =>
    match p.document with
    | none =>
      { value := none, error := set_error error ZATHURA_ERROR_INVALID_ARGUMENTS,
        page := page, state := s }
    | some document =>
      let plugin := zathura_document_get_plugin document
      match plugin.functions.page_form_fields_get with
      | none =>
        { value := none, error := set_error error ZATHURA_ERROR_NOT_IMPLEMENTED,
          page := page, state := s }
      | some page_form_fields_get =>
        let r := page_form_fields_get s.plugin_state p p.data error
        { value := r.value, error := r.error, page := apply_setters page r.setters,
          state := { plugin_state := r.state,
                     trace := s.trace ++ [effect.page_form_fields_get p p.data] } }

/-- From page.c, lines 269-288. -/
def zathura_page_images_get (s : State σ) (page : Option zathura_page_s)
    (error : Option zathura_error_t) : call_result σ girara_list_t :=
  match page with
  | none =>
    { value := none, error := set_error error ZATHURA_ERROR_INVALID_ARGUMENTS,
      page := page, state := s }
  | some p =>
    match p.document with
    | none =>
      { value := none, error := set_error error ZATHURA_ERROR_INVALID_ARGUMENTS,
        page := page, state := s }
    | some document =>
      let plugin := zathura_document_get_plugin document
      match plugin.functions.page_images_get with
      | none =>
        { value := none, error := set_error error ZATHURA_ERROR_NOT_IMPLEMENTED,
          page := page, state := s }
      | some page_images_get =>
        let r := page_images_get s.plugin_state p p.data error
        { value := r.value, error := r.error, page := apply_setters page r.setters,
          state := { plugin_state := r.state,
                     trace := s.trace ++ [effect.page_images_get p p.data] } }

/-- From page.c, lines 290-309. -/
def zathura_page_image_get_cairo (s : State σ) (page : Option zathura_page_s)
    (image : Option Nat) (error : Option zathura_error_t) : call_result σ Nat :=
  match page with
  | none =>
    { value := none, error := set_error error ZATHURA_ERROR_INVALID_ARGUMENTS,
      page := page, state := s }
  | some p =>
    match p.document with
    | none =>
      { value := none, error := set_error error ZATHURA_ERROR_INVALID_ARGUMENTS,
        page := page, state := s }
    | some document =>
      match image with
      | none =>
        { value := none, error := set_error error ZATHURA_ERROR_INVALID_ARGUMENTS,
          page := page, state := s }
      | some img =>
        let plugin := zathura_document_get_plugin document
        match plugin.functions.page_image_get_cairo with
        | none =>
          { value := none, error := set_error error ZATHURA_ERROR_NOT_IMPLEMENTED,
            page := page, state := s }
        | some page_image_get_cairo =>
          let r := page_image_get_cairo s.plugin_state p p.data img error
          { value := r.value, error := r.error, page := apply_setters page r.setters,
            state := { plugin_state := r.state,
                       trace := s.trace ++ [effect.page_image_get_cairo p p.data img] } }

/-- From page.c, lines 311-330. -/
def zathura_page_get_text (s : State σ) (page : Option zathura_page_s)
    (rectangle : zathura_rectangle_t) (error : Option zathura_error_t) :
    call_result σ String :=
  match page with
  | none =>
    { value := none, error := set_error error ZATHURA_ERROR_INVALID_ARGUMENTS,
      page := page, state := s }
  | some p =>
    match p.document with
    | none =>
      { value := none, error := set_error error ZATHURA_ERROR_INVALID_ARGUMENTS,
        page := page, state := s }
    | some document =>
      let plugin := zathura_document_get_plugin document
      match plugin.functions.page_get_text with
      | none =>
        { value := none, error := set_error error ZATHURA_ERROR_NOT_IMPLEMENTED,
          page := page, state := s }
      | some page_get_text =>
        let r := page_get_text s.plugin_state p p.data rectangle error
        { value := r.value, error := r.error, page := apply_setters page r.setters,
          state := { plugin_state := r.state,
                     trace := s.trace ++ [effect.page_get_text p p.data rectangle] } }

/-- From page.c, lines 332-356. -/
def zathura_page_get_annotations (s : State σ) (page : Option zathura_page_s)
    (error : Option zathura_error_t) : call_result σ girara_list_t :=
  match page with
  | none =>
    { value := none, error := set_error error ZATHURA_ERROR_INVALID_ARGUMENTS,
      page := page, state := s }
  | some p =>
    match p.document with
    | none =>
      { value := none, error := set_error error ZATHURA_ERROR_INVALID_ARGUMENTS,
        page := page, state := s }
    | some document =>
      let plugin := zathura_document_get_plugin document
      match plugin.functions.page_get_annotations with
      | none =>
        { value := none, error := set_error error ZATHURA_ERROR_NOT_IMPLEMENTED,
          page := page, state := s }
      | some page_get_annotations =>
        let r := page_get_annotations s.plugin_state p p.data error
        let trace := s.trace ++ [effect.page_get_annotations p p.data]
        match r.value with
        | some result =>
          { value := some (girara_list_set_free_function result
              girara_free_function_t.zathura_annotation_free),
            error := r.error, page := apply_setters page r.setters,
            state := { plugin_state := r.state,
                       trace := trace ++ [effect.girara_list_set_free_function result
                         girara_free_function_t.zathura_annotation_free] } }
        | none =>
          { value := none, error := r.error, page := apply_setters page r.setters,
            state := { plugin_state := r.state, trace := trace } }

/-- From page.c, lines 358-371. -/
def zathura_page_render (s : State σ) (page : Option zathura_page_s) (cairo : Option Nat)
    (printing : Bool) : status_result σ :=
  match page with
  | none => { value := ZATHURA_ERROR_INVALID_ARGUMENTS, page := page, state := s }
  | some p =>
    match p.document with
    | none => { value := ZATHURA_ERROR_INVALID_ARGUMENTS, page := page, state := s }
    | some document =>
      match cairo with
      | none => { value := ZATHURA_ERROR_INVALID_ARGUMENTS, page := page, state := s }
      | some c =>
        let plugin := zathura_document_get_plugin document
        match plugin.functions.page_render_cairo with
        | none => { value := ZATHURA_ERROR_NOT_IMPLEMENTED, page := page, state := s }
        | some page_render_cairo =>
          let r := page_render_cairo s.plugin_state p p.data c printing
          { value := r.status, page := apply_setters page r.setters,
            state := { plugin_state := r.state,
                       trace := s.trace ++ [effect.page_render_cairo p p.data c printing] } }

end facade

/-! ## The dispatch operations as one family -/

section family

variable {σ : Type}

/-- A call of one of the nine dispatch operations, with every argument but
the error slot. -/
inductive facade_call where
  | page_new (document : Option Nat) (index : Nat)
  | search_text (page : Option zathura_page_s) (text : Option String)
  | links_get (page : Option zathura_page_s)
  | form_fields_get (page : Option zathura_page_s)
  | images_get (page : Option zathura_page_s)
  | image_get_cairo (page : Option zathura_page_s) (image : Option Nat)
  | get_text (page : Option zathura_page_s) (rectangle : zathura_rectangle_t)
  | get_annotations (page : Option zathura_page_s)
  | render (page : Option zathura_page_s) (cairo : Option Nat) (printing : Bool)
deriving DecidableEq, Repr

/-- The C return value of a dispatch operation. -/
inductive facade_value where
  | page (p : Option zathura_page_s)
  | list (l : Option girara_list_t)
  | surface (c : Option Nat)
  | text (t : Option String)
  | status (e : zathura_error_t)
deriving DecidableEq, Repr

/-- Whether the operation handed a result object back.  `zathura_page_render`
returns an error code only, so it never does. -/
def facade_value.has_result : facade_value → Bool
  | .page p => p.isSome
  | .list l => l.isSome
  | .surface c => c.isSome
  | .text t => t.isSome
  | .status _ => false

/-- What a dispatch operation leaves behind. -/
structure facade_outcome (σ : Type) where
  value : facade_value
  error : Option zathura_error_t
  page : Option zathura_page_s
  state : State σ

/-- The error the caller is told: the returned code for `zathura_page_render`,
the content of the error slot (`none` when the caller passed no slot) for the
other operations. -/
def facade_outcome.reported (o : facade_outcome σ) : Option zathura_error_t :=
  match o.value with
  | .status e => some e
  | _ => o.error

/-- Run the C function the call names. -/
def facade_call.run (zathura_document_get_plugin : document_plugin_lookup σ) (s : State σ)
    (error : Option zathura_error_t) : facade_call → facade_outcome σ
  | .page_new document index =>
    let r := zathura_page_new zathura_document_get_plugin s document index error
    { value := .page r.value, error := r.error, page := r.page, state := r.state }
  | .search_text page text =>
    let r := zathura_page_search_text zathura_document_get_plugin s page text error
    { value := .list r.value, error := r.error, page := r.page, state := r.state }
  | .links_get page =>
    let r := zathura_page_links_get zathura_document_get_plugin s page error
    { value := .list r.value, error := r.error, page := r.page, state := r.state }
  | .form_fields_get page =>
    let r := zathura_page_form_fields_get zathura_document_get_plugin s page error
    { value := .list r.value, error := r.error, page := r.page, state := r.state }
  | .images_get page =>
    let r := zathura_page_images_get zathura_document_get_plugin s page error
    { value := .list r.value, error := r.error, page := r.page, state := r.state }
  | .image_get_cairo page image =>
    let r := zathura_page_image_get_cairo zathura_document_get_plugin s page image error
    { value := .surface r.value, error := r.error, page := r.page, state := r.state }
  | .get_text page rectangle =>
    let r := zathura_page_get_text zathura_document_get_plugin s page rectangle error
    { value := .text r.value, error := r.error, page := r.page, state := r.state }
  | .get_annotations page =>
    let r := zathura_page_get_annotations zathura_document_get_plugin s page error
    { value := .list r.value, error := r.error, page := r.page, state := r.state }
  | .render page cairo printing =>
    let r := zathura_page_render zathura_document_get_plugin s page cairo printing
    { value := .status r.value, error := none, page := r.page, state := r.state }

/-- The document a call works on: the argument of create, the back-reference of
the page for the other operations. -/
def facade_call.document : facade_call → Option Nat
  | .page_new document _ => document
  | .search_text page _ => page.bind fun p => p.document
  | .links_get page => page.bind fun p => p.document
  | .form_fields_get page => page.bind fun p => p.document
  | .images_get page => page.bind fun p => p.document
  | .image_get_cairo page _ => page.bind fun p => p.document
  | .get_text page _ => page.bind fun p => p.document
  | .get_annotations page => page.bind fun p => p.document
  | .render page _ _ => page.bind fun p => p.document

/-- A required argument is null: the document for create; the page or the
page's document for all others; additionally the query for search_text, the
image descriptor for image_get_cairo, the drawing target for render. -/
def facade_call.null_argument (c : facade_call) : Bool :=
  c.document.isNone ||
    match c with
    | .search_text _ text => text.isNone
    | .image_get_cairo _ image => image.isNone
    | .render _ cairo _ => cairo.isNone
    | _ => false

/-- Whether the function table has the function the call is dispatched to. -/
def facade_call.provided (functions : zathura_plugin_functions_t σ) : facade_call → Bool
  | .page_new _ _ => functions.page_init.isSome
  | .search_text _ _ => functions.page_search_text.isSome
  | .links_get _ => functions.page_links_get.isSome
  | .form_fields_get _ => functions.page_form_fields_get.isSome
  | .images_get _ => functions.page_images_get.isSome
  | .image_get_cairo _ _ => functions.page_image_get_cairo.isSome
  | .get_text _ _ => functions.page_get_text.isSome
  | .get_annotations _ => functions.page_get_annotations.isSome
  | .render _ _ _ => functions.page_render_cairo.isSome

/-- The call has a document and the document's plugin lacks the corresponding
function. -/
def facade_call.lacks_function (zathura_document_get_plugin : document_plugin_lookup σ)
    (c : facade_call) : Bool :=
  match c.document with
  | none => false
  | some d => !(c.provided (zathura_document_get_plugin d).functions)

/-- How a refusal with `code` reaches the caller: as the returned code for
`zathura_page_render`, through the error slot, when there is one, for the
other operations. -/
def facade_call.refusal (error : Option zathura_error_t) (code : zathura_error_t) :
    facade_call → Option zathura_error_t
  | .render _ _ _ => some code
  | _ => set_error error code

/-- The page argument of a call (create has none). -/
def facade_call.page : facade_call → Option zathura_page_s
  | .page_new _ _ => none
  | .search_text page _ => page
  | .links_get page => page
  | .form_fields_get page => page
  | .images_get page => page
  | .image_get_cairo page _ => page
  | .get_text page _ => page
  | .get_annotations page => page
  | .render page _ _ => page

end family

/-! ## The viewport notifier (callbacks.c, lines 38-76) -/

namespace callbacks

/-- Modelled from the spec: the page as callbacks.c reads it (its declaration
is not among the sources): the `rendered` mark. -/
structure zathura_page_t where
  rendered : Bool
deriving DecidableEq, Repr

/-- Modelled from the spec: the document as callbacks.c reads it (document.h is
not among the sources): the page array (`none` is a null array) and the page
count. -/
structure zathura_document_t where
  pages : Option (List zathura_page_t)
  number_of_pages : Nat
deriving DecidableEq, Repr

/-- Modelled from the spec: the application state as callbacks.c reads it
(zathura.h is not among the sources): `document`, `ui.page_view` and
`sync.render_thread`. -/
structure zathura_t where
  document : Option zathura_document_t
  page_view : Option Nat
  render_thread : Option Nat
deriving DecidableEq, Repr

/-- Modelled from the spec: `render_page` of render.h, which is not among the
sources, is a submit-style, fire-and-forget call; a call
`render_page(render_thread, pages[page_id])` is recorded as the slot `page_id`
of the page it submits. -/
def render_page (submitted : List Nat) (_render_thread : Option Nat) (page_id : Nat) :
    List Nat :=
  submitted ++ [page_id]

/-- One round of the `for` loop, for slot `page_id`.  The result is `none`
when the round reads past the end of the page array. -/
def vadjustment_round (zathura : zathura_t) (pages : List zathura_page_t)
    (submitted : List Nat) (page_id : Nat) : Option (List Nat) :=
  match pages.get? page_id with
  | none => none
  | some page =>
    if page.rendered then
      some submitted
    else if page_id < 1 then
      some (render_page submitted zathura.render_thread page_id)
    else
      some submitted

/-- The notifier.  The result is the list of page slots submitted to
`render_page`, in order, or `none` when the loop reads past the end of the
page array. -/
def cb_view_vadjustment_value_changed (_adjustment : Option Nat) (data : Option zathura_t) :
    Option (List Nat) :=
  match data with
  | none => some []
  | some zathura =>
    match zathura.document with
    | none => some []
    | some document =>
      match document.pages with
      | none => some []
      | some pages =>
        match zathura.page_view with
        | none => some []
        | some _ =>
          (List.range document.number_of_pages).foldlM (vadjustment_round zathura pages) []

/-- A document of `flags.length` pages whose rendered marks are `flags`. -/
def document_of_flags (flags : List Bool) : zathura_document_t :=
  { pages := some (flags.map fun r => { rendered := r }), number_of_pages := flags.length }

end callbacks

/-! ## Sample inputs -/

/-- A function table with no function at all. -/
def no_functions (σ : Type) : zathura_plugin_functions_t σ :=
  { page_init := none, page_clear := none, page_search_text := none, page_links_get := none,
    page_form_fields_get := none, page_images_get := none, page_image_get_cairo := none,
    page_get_text := none, page_get_annotations := none, page_render_cairo := none }

/-- Every document is served by a plugin that implements nothing. -/
def bare_lookup : document_plugin_lookup Unit :=
  fun _ => { functions := no_functions Unit }

/-- An empty outside state. -/
def idle : State Unit :=
  { plugin_state := (), trace := [] }

/-- A page of document 0, at index 2, sized 612 by 792 (as bit patterns). -/
def sample_page : zathura_page_s :=
  { height := ⟨0x4088C00000000000⟩, width := ⟨0x4083200000000000⟩, index := 2,
    data := some 77, visible := true, document := some 0 }

/-- A plugin in the manner of a PDF backend, whose own state counts the hook
invocations.  `page_init` stores a handle and the page size on the page;
`page_get_annotations` returns a list of two annotations that carries no free
function; `page_search_text` finds nothing and reports `OK`. -/
def sample_functions : zathura_plugin_functions_t Nat :=
  { page_init := some fun n page =>
      { status := ZATHURA_ERROR_OK,
        setters := [page_setter.set_data (some (1000 + page.index)),
                    page_setter.set_width ⟨0x4083200000000000⟩,
                    page_setter.set_height ⟨0x4088C00000000000⟩],
        state := n + 1 },
    page_clear := some fun n _ _ =>
      { status := ZATHURA_ERROR_OK, setters := [], state := n + 1 },
    page_search_text := some fun n _ _ _ error =>
      { value := some { elements := [], free_function := none },
        error := set_error error ZATHURA_ERROR_OK, setters := [], state := n + 1 },
    page_links_get := none,
    page_form_fields_get := none,
    page_images_get := none,
    page_image_get_cairo := none,
    page_get_text := some fun n _ _ _ error =>
      { value := none, error := set_error error (plugin_defined 5), setters := [],
        state := n + 1 },
    page_get_annotations := some fun n _ _ error =>
      { value := some { elements := [41, 42], free_function := none },
        error := set_error error ZATHURA_ERROR_OK, setters := [], state := n + 1 },
    page_render_cairo := some fun n _ _ _ printing =>
      { status := if printing then plugin_defined 9 else ZATHURA_ERROR_OK, setters := [],
        state := n + 1 } }

/-- A plugin whose `page_init` always fails with a code of its own and which
has a `page_clear`. -/
def failing_functions : zathura_plugin_functions_t Nat :=
  { no_functions Nat with
    page_init := some fun n _ =>
      { status := plugin_defined 7, setters := [], state := n + 1 },
    page_clear := some fun n _ _ =>
      { status := ZATHURA_ERROR_OK, setters := [], state := n + 1 } }

/-- A plugin whose `page_init` always fails with a code of its own and which
has no `page_clear`. -/
def failing_functions_without_clear : zathura_plugin_functions_t Nat :=
  { no_functions Nat with
    page_init := some fun n _ =>
      { status := plugin_defined 7, setters := [], state := n + 1 } }

/-- Document 0 is served by `sample_functions`, document 1 by
`failing_functions`, document 2 by `failing_functions_without_clear`, every
other document by a plugin that implements nothing. -/
def sample_lookup : document_plugin_lookup Nat :=
  fun d =>
    if d = 0 then { functions := sample_functions }
    else if d = 1 then { functions := failing_functions }
    else if d = 2 then { functions := failing_functions_without_clear }
    else { functions := no_functions Nat }

/-- Page 3 of document 0 as `page_init` of `sample_functions` leaves it. -/
def sample_created_page : zathura_page_s :=
  { height := ⟨0x4088C00000000000⟩, width := ⟨0x4083200000000000⟩, index := 3,
    data := some 1003, visible := false, document := some 0 }

/-- An outside state in which the plugin has not been called yet. -/
def start : State Nat :=
  { plugin_state := 0, trace := [] }

/-! # Theorems -/

section theorems

variable {σ : Type}

/-! ## What a hook can do to a page -/

/-- Setter calls on a non-null page leave a non-null page with the same index
and document. -/
theorem apply_setters_identity (setters : List page_setter) (p : zathura_page_s) :
    ∃ q, apply_setters (some p) setters = some q ∧ q.index = p.index ∧
      q.document = p.document := by
  induction setters generalizing p with
  | nil => exact ⟨p, rfl, rfl, rfl⟩
  | cons st rest ih =>
    cases st with
    | set_width w =>
      obtain ⟨q, hq, hi, hd⟩ := ih { p with width := w }
      exact ⟨q, hq, hi, hd⟩
    | set_height h =>
      obtain ⟨q, hq, hi, hd⟩ := ih { p with height := h }
      exact ⟨q, hq, hi, hd⟩
    | set_visibility v =>
      obtain ⟨q, hq, hi, hd⟩ := ih { p with visible := v }
      exact ⟨q, hq, hi, hd⟩
    | set_data d =>
      obtain ⟨q, hq, hi, hd⟩ := ih { p with data := d }
      exact ⟨q, hq, hi, hd⟩

/-! ## Dispatch refusals -/

/-- C1: a dispatch call with a null required argument, or else with a plugin
that lacks the function, hands back no result and is refused with
`INVALID_ARGUMENTS` in the first case (whatever the function table holds) and
`NOT_IMPLEMENTED` in the second, through the returned code for render and
through the error slot, whenever the caller supplied one, otherwise; no plugin
hook is invoked and the plugin's state is as before. -/
theorem dispatch_refuses_in_order (zathura_document_get_plugin : document_plugin_lookup σ)
    (s : State σ) (error : Option zathura_error_t) (c : facade_call)
    (h : c.null_argument = true ∨ c.lacks_function zathura_document_get_plugin = true) :
    (c.run zathura_document_get_plugin s error).value.has_result = false ∧
    (c.run zathura_document_get_plugin s error).reported =
      c.refusal error (if c.null_argument = true then ZATHURA_ERROR_INVALID_ARGUMENTS
        else ZATHURA_ERROR_NOT_IMPLEMENTED) ∧
    (c.run zathura_document_get_plugin s error).state.plugin_calls = s.plugin_calls ∧
    (c.run zathura_document_get_plugin s error).state.plugin_state = s.plugin_state := by
  rcases c with ⟨_ | d, i⟩ | ⟨_ | ⟨hh, ww, ii, dd, vv, _ | d⟩, _ | t⟩ |
    (_ | ⟨hh, ww, ii, dd, vv, _ | d⟩) | (_ | ⟨hh, ww, ii, dd, vv, _ | d⟩) |
    (_ | ⟨hh, ww, ii, dd, vv, _ | d⟩) | ⟨_ | ⟨hh, ww, ii, dd, vv, _ | d⟩, _ | im⟩ |
    ⟨_ | ⟨hh, ww, ii, dd, vv, _ | d⟩, r⟩ | (_ | ⟨hh, ww, ii, dd, vv, _ | d⟩) |
    ⟨_ | ⟨hh, ww, ii, dd, vv, _ | d⟩, _ | ca, pr⟩
  all_goals first
    | (simp [facade_call.run, facade_call.null_argument, facade_call.document,
        facade_call.refusal, facade_outcome.reported, facade_value.has_result,
        zathura_page_new, zathura_page_search_text, zathura_page_links_get,
        zathura_page_form_fields_get, zathura_page_images_get, zathura_page_image_get_cairo,
        zathura_page_get_text, zathura_page_get_annotations, zathura_page_render]; done)
    | skip
  all_goals
    simp [facade_call.null_argument, facade_call.lacks_function, facade_call.document,
      facade_call.provided] at h
    simp [facade_call.run, facade_call.null_argument, facade_call.document,
      facade_call.refusal, facade_outcome.reported, facade_value.has_result,
      zathura_page_new, zathura_page_search_text, zathura_page_links_get,
      zathura_page_form_fields_get, zathura_page_images_get, zathura_page_image_get_cairo,
      zathura_page_get_text, zathura_page_get_annotations, zathura_page_render, h,
      State.plugin_calls, effect.is_plugin_call]

/-- C1, at a sample input: `search_text(page, "foo")` on a plugin that has no
`page_search_text`. -/
theorem dispatch_refuses_in_order_witness :
    (facade_call.search_text (some sample_page) (some "foo")).lacks_function bare_lookup = true ∧
    ((facade_call.search_text (some sample_page) (some "foo")).run bare_lookup idle
      (some ZATHURA_ERROR_OK)).value = facade_value.list none ∧
    ((facade_call.search_text (some sample_page) (some "foo")).run bare_lookup idle
      (some ZATHURA_ERROR_OK)).reported = some ZATHURA_ERROR_NOT_IMPLEMENTED ∧
    ((facade_call.search_text (some sample_page) (some "foo")).run bare_lookup idle
      (some ZATHURA_ERROR_OK)).state.plugin_calls = [] :=
  have h := dispatch_refuses_in_order bare_lookup idle (some ZATHURA_ERROR_OK)
    (facade_call.search_text (some sample_page) (some "foo")) (Or.inr (by decide))
  ⟨by decide, by decide, h.2.1, h.2.2.1⟩

/-! ## Delegation -/

/-- C6, as the code has it: a page returned by `zathura_page_new` has the index
and the document given to create, and is the zero-filled page of that index
and document (visibility false, width and height zero, data null) after the
setter calls that `page_init`, which returned `OK`, made on it. -/
theorem zathura_page_new_success (zathura_document_get_plugin : document_plugin_lookup σ)
    (s : State σ) (d index : Nat) (error : Option zathura_error_t) (page : zathura_page_s)
    (h : (zathura_page_new zathura_document_get_plugin s (some d) index error).value
      = some page) :
    zathura_page_get_index (some page) = index ∧
    zathura_page_get_document (some page) = some d ∧
    (∃ page_init : σ → zathura_page_s → hook_status σ,
      (zathura_document_get_plugin d).functions.page_init = some page_init ∧
      (page_init s.plugin_state (fresh_page d index)).status = ZATHURA_ERROR_OK ∧
      some page = apply_setters (some (fresh_page d index))
        (page_init s.plugin_state (fresh_page d index)).setters) ∧
    zathura_page_get_visibility (some (fresh_page d index)) = false ∧
    zathura_page_get_width (some (fresh_page d index)) = double.zero ∧
    zathura_page_get_height (some (fresh_page d index)) = double.zero ∧
    zathura_page_get_data (some (fresh_page d index)) = none := by
  cases hinit : (zathura_document_get_plugin d).functions.page_init with
  | none => simp [zathura_page_new, hinit] at h
  | some page_init =>
    obtain ⟨q, hq, hqi, hqd⟩ := apply_setters_identity
      (page_init s.plugin_state (fresh_page d index)).setters (fresh_page d index)
    by_cases hok : (page_init s.plugin_state (fresh_page d index)).status = ZATHURA_ERROR_OK
    · simp only [zathura_page_new, hinit, hok, hq] at h
      simp at h
      subst h
      refine ⟨by simpa [zathura_page_get_index, fresh_page] using hqi,
        by simpa [zathura_page_get_document, fresh_page] using hqd,
        ⟨page_init, rfl, hok, hq.symm⟩, rfl, rfl, rfl, rfl⟩
    · simp [zathura_page_new, hinit, hok, hq] at h

/-- C6, at a sample input: page 3 of document 0, whose `page_init` stores a
handle and the page size. -/
theorem zathura_page_new_success_witness :
    (zathura_page_new sample_lookup start (some 0) 3 (some ZATHURA_ERROR_OK)).value
      = some sample_created_page ∧
    zathura_page_get_index (some sample_created_page) = 3 ∧
    zathura_page_get_document (some sample_created_page) = some 0 :=
  have h := zathura_page_new_success sample_lookup start 0 3 (some ZATHURA_ERROR_OK)
    sample_created_page rfl
  ⟨rfl, h.1, h.2.1⟩

/-- C6 fails as stated: page 3 of document 0 is created successfully, and its
width is not zero, because `page_init` of that plugin called `set_width`. -/
theorem zathura_page_new_width_not_zero :
    ¬ (∀ (lookup : document_plugin_lookup Nat) (s : State Nat) (d index : Nat)
        (error : Option zathura_error_t) (page : zathura_page_s),
        (zathura_page_new lookup s (some d) index error).value = some page →
        zathura_page_get_index (some page) = index ∧
        zathura_page_get_visibility (some page) = false ∧
        zathura_page_get_document (some page) = some d ∧
        zathura_page_get_width (some page) = double.zero ∧
        zathura_page_get_height (some page) = double.zero) := by
  intro hall
  have h := (hall sample_lookup start 0 3 (some ZATHURA_ERROR_OK)
    sample_created_page rfl).2.2.2.1
  exact absurd h (by decide)

/-- C4, at failing inputs.  Creating a page for a document whose plugin has no
`page_init` allocates the page, reports `NOT_IMPLEMENTED`, returns no page, and
never releases the allocation.  Creating a page for document 2, whose
`page_init` fails and which has no `page_clear`, likewise ends with the page
still allocated.  For document 1, whose `page_init` fails and which has a
`page_clear`, the page is released. -/
theorem zathura_page_new_keeps_page_on_failure :
    ((zathura_page_new bare_lookup idle (some 0) 3 (some ZATHURA_ERROR_OK)).value = none ∧
      (zathura_page_new bare_lookup idle (some 0) 3 (some ZATHURA_ERROR_OK)).error
        = some ZATHURA_ERROR_NOT_IMPLEMENTED ∧
      (zathura_page_new bare_lookup idle (some 0) 3 (some ZATHURA_ERROR_OK)).state.trace
        = [effect.g_malloc0] ∧
      ((zathura_page_new bare_lookup idle (some 0) 3
        (some ZATHURA_ERROR_OK)).state.trace.filter effect.is_malloc).length = 1 ∧
      ((zathura_page_new bare_lookup idle (some 0) 3
        (some ZATHURA_ERROR_OK)).state.trace.filter effect.is_free).length = 0 ∧
      (zathura_page_new bare_lookup idle (some 0) 3 (some ZATHURA_ERROR_OK)).page
        = some (fresh_page 0 3)) ∧
    ((zathura_page_new sample_lookup start (some 2) 3 (some ZATHURA_ERROR_OK)).value = none ∧
      (zathura_page_new sample_lookup start (some 2) 3 (some ZATHURA_ERROR_OK)).error
        = some (plugin_defined 7) ∧
      (zathura_page_new sample_lookup start (some 2) 3 (some ZATHURA_ERROR_OK)).state.trace
        = [effect.g_malloc0, effect.page_init (fresh_page 2 3)] ∧
      (zathura_page_new sample_lookup start (some 2) 3 (some ZATHURA_ERROR_OK)).page
        = some (fresh_page 2 3)) ∧
    ((zathura_page_new sample_lookup start (some 1) 3 (some ZATHURA_ERROR_OK)).state.trace
        = [effect.g_malloc0, effect.page_init (fresh_page 1 3),
           effect.page_clear (fresh_page 1 3) none, effect.g_free] ∧
      (zathura_page_new sample_lookup start (some 1) 3 (some ZATHURA_ERROR_OK)).page = none) := by
  decide

/-! ## Accessors -/

/-- C9: on a null page every getter returns its sentinel (width and height
`-1`, index `0`, data and document null, visibility false), every setter does
nothing (there is still no page), and a getter after a setter on the null page
still returns the sentinel. -/
theorem null_page_accessors (w h : double) (v : Bool) (d : Option Nat) :
    zathura_page_get_width none = double.neg_one ∧
    zathura_page_get_height none = double.neg_one ∧
    zathura_page_get_index none = 0 ∧
    zathura_page_get_data none = none ∧
    zathura_page_get_document none = none ∧
    zathura_page_get_visibility none = false ∧
    zathura_page_set_width none w = none ∧
    zathura_page_set_height none h = none ∧
    zathura_page_set_visibility none v = none ∧
    zathura_page_set_data none d = none ∧
    zathura_page_get_width (zathura_page_set_width none w) = double.neg_one ∧
    zathura_page_get_height (zathura_page_set_height none h) = double.neg_one ∧
    zathura_page_get_visibility (zathura_page_set_visibility none v) = false ∧
    zathura_page_get_data (zathura_page_set_data none d) = none := by
  simp [zathura_page_get_width, zathura_page_get_height, zathura_page_get_index,
    zathura_page_get_data, zathura_page_get_document, zathura_page_get_visibility,
    zathura_page_set_width, zathura_page_set_height, zathura_page_set_visibility,
    zathura_page_set_data]

/-- C10: on a non-null page, `get_width` after `set_width w` returns `w`,
`get_height` after `set_height h` returns `h`, `get_visibility` after
`set_visibility v` returns `v` (for both booleans), and each of the three
setters leaves what every other getter reads as it was. -/
theorem set_then_get (p : zathura_page_s) (w h : double) (v : Bool) :
    (zathura_page_get_width (zathura_page_set_width (some p) w) = w ∧
      zathura_page_get_height (zathura_page_set_width (some p) w)
        = zathura_page_get_height (some p) ∧
      zathura_page_get_visibility (zathura_page_set_width (some p) w)
        = zathura_page_get_visibility (some p) ∧
      zathura_page_get_index (zathura_page_set_width (some p) w)
        = zathura_page_get_index (some p) ∧
      zathura_page_get_data (zathura_page_set_width (some p) w)
        = zathura_page_get_data (some p) ∧
      zathura_page_get_document (zathura_page_set_width (some p) w)
        = zathura_page_get_document (some p)) ∧
    (zathura_page_get_height (zathura_page_set_height (some p) h) = h ∧
      zathura_page_get_width (zathura_page_set_height (some p) h)
        = zathura_page_get_width (some p) ∧
      zathura_page_get_visibility (zathura_page_set_height (some p) h)
        = zathura_page_get_visibility (some p) ∧
      zathura_page_get_index (zathura_page_set_height (some p) h)
        = zathura_page_get_index (some p) ∧
      zathura_page_get_data (zathura_page_set_height (some p) h)
        = zathura_page_get_data (some p) ∧
      zathura_page_get_document (zathura_page_set_height (some p) h)
        = zathura_page_get_document (some p)) ∧
    (zathura_page_get_visibility (zathura_page_set_visibility (some p) v) = v ∧
      zathura_page_get_width (zathura_page_set_visibility (some p) v)
        = zathura_page_get_width (some p) ∧
      zathura_page_get_height (zathura_page_set_visibility (some p) v)
        = zathura_page_get_height (some p) ∧
      zathura_page_get_index (zathura_page_set_visibility (some p) v)
        = zathura_page_get_index (some p) ∧
      zathura_page_get_data (zathura_page_set_visibility (some p) v)
        = zathura_page_get_data (some p) ∧
      zathura_page_get_document (zathura_page_set_visibility (some p) v)
        = zathura_page_get_document (some p)) := by
  simp [zathura_page_get_width, zathura_page_get_height, zathura_page_get_index,
    zathura_page_get_data, zathura_page_get_document, zathura_page_get_visibility,
    zathura_page_set_width, zathura_page_set_height, zathura_page_set_visibility]

/-! ## Teardown -/

/-- C5: `zathura_page_free` returns `INVALID_ARGUMENTS` for a null page and for
a page whose document is null; otherwise `NOT_IMPLEMENTED` when the plugin of
the document has no `page_clear`; otherwise the code `page_clear` returned, and
then `page_clear` is its one hook invocation, made with the page and the
page's data. -/
theorem zathura_page_free_value (zathura_document_get_plugin : document_plugin_lookup σ)
    (s : State σ) (page : Option zathura_page_s) :
    (zathura_page_free zathura_document_get_plugin s page).value =
      (match page with
        | none => ZATHURA_ERROR_INVALID_ARGUMENTS
        | some p =>
          match p.document with
          | none => ZATHURA_ERROR_INVALID_ARGUMENTS
          | some d =>
            match (zathura_document_get_plugin d).functions.page_clear with
            | none => ZATHURA_ERROR_NOT_IMPLEMENTED
            | some page_clear => (page_clear s.plugin_state p p.data).status) ∧
    (zathura_page_free zathura_document_get_plugin s page).state.plugin_calls =
      s.plugin_calls ++
      (match page with
        | none => []
        | some p =>
          match p.document with
          | none => []
          | some d =>
            match (zathura_document_get_plugin d).functions.page_clear with
            | none => []
            | some _ => [effect.page_clear p p.data]) := by
  rcases page with _ | ⟨hh, ww, ii, dd, vv, _ | d⟩
  · simp [zathura_page_free]
  · simp [zathura_page_free, State.plugin_calls, effect.is_plugin_call]
  · cases hc : (zathura_document_get_plugin d).functions.page_clear <;>
      simp [zathura_page_free, hc, State.plugin_calls, effect.is_plugin_call]

/-- The number of `g_free` calls `zathura_page_free` makes on a non-null page:
none when the page has a document whose plugin lacks `page_clear`, one in
every other case. -/
theorem zathura_page_free_release_count
    (zathura_document_get_plugin : document_plugin_lookup σ) (s : State σ)
    (p : zathura_page_s) :
    ((zathura_page_free zathura_document_get_plugin s (some p)).state.trace.filter
        effect.is_free).length
      = (s.trace.filter effect.is_free).length +
        (match p.document with
          | none => 1
          | some d =>
            match (zathura_document_get_plugin d).functions.page_clear with
            | none => 0
            | some _ => 1) := by
  rcases p with ⟨hh, ww, ii, dd, vv, _ | d⟩
  · simp [zathura_page_free, effect.is_free]
  · cases hc : (zathura_document_get_plugin d).functions.page_clear <;>
      simp [zathura_page_free, hc, effect.is_free]

/-- C3, at the failing input: freeing a page of a document whose plugin has no
`page_clear` returns `NOT_IMPLEMENTED` without any `g_free`, and the page stays
allocated; the same page with a null document is released, by one `g_free`. -/
theorem zathura_page_free_keeps_page_without_page_clear :
    (zathura_page_free bare_lookup idle (some sample_page)).value
      = ZATHURA_ERROR_NOT_IMPLEMENTED ∧
    (zathura_page_free bare_lookup idle (some sample_page)).state.trace = [] ∧
    (zathura_page_free bare_lookup idle (some sample_page)).page = some sample_page ∧
    (zathura_page_free bare_lookup idle (some { sample_page with document := none })).state.trace
      = [effect.g_free] ∧
    (zathura_page_free bare_lookup idle (some { sample_page with document := none })).page
      = none := by
  decide

/-! ## Annotations -/

/-- C7: for `zathura_page_get_annotations` on a non-null page with a non-null
document whose plugin has `page_get_annotations`: when the hook returns a list,
the facade returns that list (same elements) with `zathura_annotation_free` as
its free function, installed by one call of `girara_list_set_free_function`;
when the hook returns no list, the facade returns none and makes no such call.
The hook is invoked once, and the error slot is the one it left. -/
theorem zathura_page_get_annotations_installs_free
    (zathura_document_get_plugin : document_plugin_lookup σ) (s : State σ)
    (p : zathura_page_s) (d : Nat) (error : Option zathura_error_t)
    (page_get_annotations : σ → zathura_page_s → Option Nat → Option zathura_error_t →
      hook_result σ girara_list_t)
    (hd : p.document = some d)
    (hf : (zathura_document_get_plugin d).functions.page_get_annotations
      = some page_get_annotations) :
    (zathura_page_get_annotations zathura_document_get_plugin s (some p) error).value =
      (page_get_annotations s.plugin_state p p.data error).value.map
        (fun l => { elements := l.elements,
                    free_function := some girara_free_function_t.zathura_annotation_free }) ∧
    (zathura_page_get_annotations zathura_document_get_plugin s (some p) error).state.trace =
      s.trace ++ [effect.page_get_annotations p p.data] ++
      (match (page_get_annotations s.plugin_state p p.data error).value with
        | some l => [effect.girara_list_set_free_function l
            girara_free_function_t.zathura_annotation_free]
        | none => []) ∧
    (zathura_page_get_annotations zathura_document_get_plugin s (some p) error).error =
      (page_get_annotations s.plugin_state p p.data error).error := by
  cases hv : (page_get_annotations s.plugin_state p p.data error).value <;>
    simp [zathura_page_get_annotations, hd, hf, hv, girara_list_set_free_function]

/-- C7, at a sample input: the plugin of document 0 returns the annotations
`[41, 42]` with no free function; the facade returns them with
`zathura_annotation_free` installed. -/
theorem zathura_page_get_annotations_installs_free_witness :
    sample_page.document = some 0 ∧
    (zathura_page_get_annotations sample_lookup start (some sample_page)
      (some ZATHURA_ERROR_NOT_IMPLEMENTED)).value =
      some { elements := [41, 42],
             free_function := some girara_free_function_t.zathura_annotation_free } ∧
    (zathura_page_get_annotations sample_lookup start (some sample_page)
      (some ZATHURA_ERROR_NOT_IMPLEMENTED)).error = some ZATHURA_ERROR_OK :=
  have h := zathura_page_get_annotations_installs_free sample_lookup start sample_page 0
    (some ZATHURA_ERROR_NOT_IMPLEMENTED) _ rfl rfl
  ⟨rfl, h.1, h.2.2⟩

/-! ## The viewport notifier -/

/-- Rounds for slots from 1 on submit nothing: they leave the list of
submissions as it is, provided the slots exist. -/
theorem callbacks.rounds_after_first (zathura : callbacks.zathura_t)
    (pages : List callbacks.zathura_page_t) (k m : Nat) (submitted : List Nat)
    (hk : 1 ≤ k) (hm : k + m ≤ pages.length) :
    (List.range' k m).foldlM (callbacks.vadjustment_round zathura pages) submitted
      = some submitted := by
  induction m generalizing k with
  | zero => simp
  | succ m ih =>
    have hlt : k < pages.length := by omega
    have hround : callbacks.vadjustment_round zathura pages submitted k = some submitted := by
      have hnot : ¬ k < 1 := by omega
      simp [callbacks.vadjustment_round, List.getElem?_eq_getElem hlt, hnot]
    rw [List.range'_succ, List.foldlM_cons, hround]
    exact ih (k + 1) (by omega) (by omega)

/-- C8: one invocation of the notifier on a non-null application state submits
nothing when the document, its page array or the page-view widget is missing;
otherwise, for a document of any number of pages with any rendered marks, it
submits exactly slot 0, once, when there is a page 0 that is not marked
rendered, and nothing otherwise; for five unrendered pages it submits `[0]`. -/
theorem cb_view_vadjustment_value_changed_submits (adjustment : Option Nat)
    (zathura : callbacks.zathura_t) (n : Nat) (flags : List Bool) (view : Nat)
    (thread : Option Nat) :
    callbacks.cb_view_vadjustment_value_changed adjustment
      (some { zathura with document := none }) = some [] ∧
    callbacks.cb_view_vadjustment_value_changed adjustment
      (some { zathura with document := some { pages := none, number_of_pages := n } })
      = some [] ∧
    callbacks.cb_view_vadjustment_value_changed adjustment
      (some { zathura with page_view := none }) = some [] ∧
    callbacks.cb_view_vadjustment_value_changed adjustment
      (some { document := some (callbacks.document_of_flags flags), page_view := some view,
              render_thread := thread })
      = some (match flags with
        | false :: _ => [0]
        | _ => []) ∧
    callbacks.cb_view_vadjustment_value_changed adjustment
      (some { document := some (callbacks.document_of_flags (List.replicate 5 false)),
              page_view := some view, render_thread := thread })
      = some [0] := by
  have main : ∀ fl : List Bool,
      callbacks.cb_view_vadjustment_value_changed adjustment
        (some { document := some (callbacks.document_of_flags fl), page_view := some view,
                render_thread := thread })
        = some (match fl with
          | false :: _ => [0]
          | _ => []) := by
    intro fl
    cases fl with
    | nil => simp [callbacks.cb_view_vadjustment_value_changed, callbacks.document_of_flags]
    | cons r rest =>
      have hlen : 1 + rest.length
          ≤ ((r :: rest).map fun b => ({ rendered := b } : callbacks.zathura_page_t)).length := by
        simp; omega
      have hrest := fun sub => callbacks.rounds_after_first
        { document := some (callbacks.document_of_flags (r :: rest)), page_view := some view,
          render_thread := thread }
        ((r :: rest).map fun b => ({ rendered := b } : callbacks.zathura_page_t))
        1 rest.length sub (le_refl 1) hlen
      simp only [callbacks.cb_view_vadjustment_value_changed, callbacks.document_of_flags,
        List.length_cons, List.range_eq_range', List.range'_succ, List.foldlM_cons]
      cases r <;>
        simp [callbacks.vadjustment_round, callbacks.render_page, callbacks.document_of_flags,
          hrest] <;>
        simpa [callbacks.document_of_flags] using hrest _
  refine ⟨?_, ?_, ?_, main flags, ?_⟩
  · simp [callbacks.cb_view_vadjustment_value_changed]
  · simp [callbacks.cb_view_vadjustment_value_changed]
  · rcases zathura with ⟨_ | ⟨_ | pages, k⟩, pv, th⟩ <;>
      simp [callbacks.cb_view_vadjustment_value_changed]
  · exact main (List.replicate 5 false)

end theorems

end Zathura
